import Mathlib

/-!
Shallow embedding of the uc-intg-weather integration (Python) and proofs
about its specification claims.

Source files embedded:
- uc_intg_weather/client.py   (WeatherClient: icon tables, get_current_weather,
  geocode_location display-name rule)
- uc_intg_weather/weather_entity.py (WeatherEntity.update_weather)
- uc_intg_weather/driver.py   (get_smart_update_interval)
- uc_intg_weather/config.py   (WeatherConfig: load, save, is_configured)

Modelling conventions:
- JSON numbers are modelled as exact rationals; JSON integers as Int.
- Python dict.get(key, default) is modelled as Option.getD.
- Python string truthiness is modelled as inequality with the empty string;
  float truthiness as inequality with 0.
- The HTTP layer is modelled by an explicit outcome value per attempt
  (timeout, connection-layer exception, or a response with a status and an
  optional parsed `current` object).
- Filesystem/base64 icon encoding (WeatherEntity._get_icon_base64) is kept
  abstract as a function parameter `getIcon : String → String`; the code only
  ever calls it on icon filenames.
-/

namespace UCWeather

/-! ### client.py: weather-code tables (lines 17-109)

The three dict literals of WeatherClient, as association lists in source
order.  Keys are the Open-Meteo WMO weather codes. -/

def WEATHER_ICONS_DAY : List (Int × String) :=
  [ (0, "sun.png"), (1, "sun-cloud.png"), (2, "sun-cloud.png"), (3, "cloud.png")
  , (45, "fog.png"), (48, "fog.png")
  , (51, "drizzle.png"), (53, "drizzle.png"), (55, "drizzle.png")
  , (56, "drizzle.png"), (57, "drizzle.png")
  , (61, "rain.png"), (63, "rain.png"), (65, "rain-heavy.png")
  , (66, "rain.png"), (67, "rain-heavy.png")
  , (71, "snow.png"), (73, "snow.png"), (75, "snow-heavy.png"), (77, "snow.png")
  , (80, "rain.png"), (81, "rain.png"), (82, "rain-heavy.png")
  , (85, "snow.png"), (86, "snow-heavy.png")
  , (95, "thunderstorm.png"), (96, "thunderstorm.png"), (99, "thunderstorm.png") ]

def WEATHER_ICONS_NIGHT : List (Int × String) :=
  [ (0, "moon.png"), (1, "moon-cloud.png"), (2, "moon-cloud.png"), (3, "cloud.png")
  , (45, "fog.png"), (48, "fog.png")
  , (51, "drizzle.png"), (53, "drizzle.png"), (55, "drizzle.png")
  , (56, "drizzle.png"), (57, "drizzle.png")
  , (61, "rain.png"), (63, "rain.png"), (65, "rain-heavy.png")
  , (66, "rain.png"), (67, "rain-heavy.png")
  , (71, "snow.png"), (73, "snow.png"), (75, "snow-heavy.png"), (77, "snow.png")
  , (80, "rain.png"), (81, "rain.png"), (82, "rain-heavy.png")
  , (85, "snow.png"), (86, "snow-heavy.png")
  , (95, "thunderstorm.png"), (96, "thunderstorm.png"), (99, "thunderstorm.png") ]

def WEATHER_DESCRIPTIONS : List (Int × String) :=
  [ (0, "Clear sky"), (1, "Mainly clear"), (2, "Partly cloudy"), (3, "Overcast")
  , (45, "Fog"), (48, "Depositing rime fog")
  , (51, "Light drizzle"), (53, "Moderate drizzle"), (55, "Dense drizzle")
  , (56, "Light freezing drizzle"), (57, "Dense freezing drizzle")
  , (61, "Slight rain"), (63, "Moderate rain"), (65, "Heavy rain")
  , (66, "Light freezing rain"), (67, "Heavy freezing rain")
  , (71, "Slight snow"), (73, "Moderate snow"), (75, "Heavy snow"), (77, "Snow grains")
  , (80, "Light rain showers"), (81, "Moderate rain showers"), (82, "Heavy rain showers")
  , (85, "Light snow showers"), (86, "Heavy snow showers")
  , (95, "Thunderstorm"), (96, "Thunderstorm with hail")
  , (99, "Thunderstorm with heavy hail") ]

/-! ### client.py: temperature formatting

The source formats the temperature with the Python f-string
`f"\x7btemperature:.1f\x7dÂ°F"` (client.py line 163).  Note the literal
suffix in the source file is the two characters U+00C2 U+00B0 followed by
`F` (the file holds the bytes C3 82 C2 B0 46, a double-encoded degree
sign), so the produced string ends in `Â°F`.

Python `.1f` rounds to one decimal using round-half-to-even on the IEEE
double.  We model the value as an exact rational and round half-to-even on
it; every concrete evaluation below uses inputs whose scaled value is not a
representation-dependent tie, where the two notions agree.  The sign is
preserved, so a small negative value formats as `-0.0`. -/

/-- The magnitude of `q` in rounded tenths: `|q| * 10` rounded to the
nearest integer, ties to even, computed on the numerator and denominator
(`t / d` with both operands nonnegative is the floor, `r` the remainder,
and `2r` against `d` classifies below-half / above-half / exact-half). -/
def tenths (q : ℚ) : ℤ :=
  let t : ℤ := 10 * (q.num.natAbs : ℤ)
  let d : ℤ := (q.den : ℤ)
  let f := t / d
  let r := t % d
  if 2 * r < d then f
  else if d < 2 * r then f + 1
  else if f % 2 = 0 then f else f + 1

def format1f (q : ℚ) : String :=
  (if q.num < 0 then "-" else "")
    ++ toString ((tenths q).toNat / 10)
    ++ "." ++ toString ((tenths q).toNat % 10)

/-! ### client.py: get_current_weather (lines 128-185) -/

/-- The fields of the `current` object of the forecast response body, each
optional because the source reads them with `current.get(key, default)`. -/
structure Current where
  temperature_2m : Option ℚ
  weather_code : Option Int
  relative_humidity_2m : Option ℚ
  wind_speed_10m : Option ℚ
  is_day : Option Int
deriving DecidableEq

/-- One outcome of a single HTTP attempt of get_current_weather:
an `asyncio.TimeoutError`, a connection-layer exception of the transient
"infrastructure not ready" family (caught by the generic `except Exception`
of the source exactly like any other), any other exception, or a response
with a status code and the optional parsed `current` object (`none` when
the body has no `current` key, in which case the source substitutes `\x7b\x7d`). -/
inductive FetchOutcome where
  | timeout
  | transientInfra
  | otherError
  | response (status : Nat) (current : Option Current)
deriving DecidableEq

/-- The result dict built by get_current_weather on success.  The source
stores `humidity` and `wind_speed` as the strings `f"\x7bhumidity\x7d%"` and
`f"\x7bwind_speed\x7d mph"`; we carry the underlying numbers (no claim
inspects these two fields). -/
structure WeatherResult where
  temperature : String
  description : String
  icon : String
  humidity : ℚ
  wind_speed : ℚ
  weather_code : Int
  is_day : Int
deriving DecidableEq

def emptyCurrent : Current :=
  { temperature_2m := none, weather_code := none, relative_humidity_2m := none
  , wind_speed_10m := none, is_day := none }

/-- client.py lines 156-160: icon selection with `dict.get(code, default)`
fallbacks "sun.png" (day branch) and "moon.png" (night branch). -/
def icon_for (weather_code : Int) (is_day : Int) : String :=
  if is_day = 1 then (WEATHER_ICONS_DAY.lookup weather_code).getD "sun.png"
  else (WEATHER_ICONS_NIGHT.lookup weather_code).getD "moon.png"

/-- client.py line 164: description with fallback "Unknown". -/
def description_for (weather_code : Int) : String :=
  (WEATHER_DESCRIPTIONS.lookup weather_code).getD "Unknown"

/-- client.py lines 128-185.  The try block makes exactly one HTTP request;
`asyncio.TimeoutError` and every other exception (including transient
connection-layer failures) are caught and turn into `None`; a non-200
status returns `None`; a 200 response reads `data.get("current", \x7b\x7d)`
and each field with a default (`weather_code` 0, `temperature_2m` 0,
`relative_humidity_2m` 0, `wind_speed_10m` 0, `is_day` 1). -/
def get_current_weather (o : FetchOutcome) : Option WeatherResult :=
  match o with
  | .timeout => none
  | .transientInfra => none
  | .otherError => none
  | .response status current =>
      if status = 200 then
        let cur := current.getD emptyCurrent
        let weather_code := cur.weather_code.getD 0
        let temperature := cur.temperature_2m.getD 0
        let humidity := cur.relative_humidity_2m.getD 0
        let wind_speed := cur.wind_speed_10m.getD 0
        let is_day := cur.is_day.getD 1
        some
          { temperature := format1f temperature ++ "Â°F"
          , description := description_for weather_code
          , icon := icon_for weather_code is_day
          , humidity := humidity
          , wind_speed := wind_speed
          , weather_code := weather_code
          , is_day := is_day }
      else none

/-- One call of get_current_weather against an environment that supplies
one outcome per HTTP attempt, returning the surfaced result together with
the number of attempts made.  The source body contains no loop and no
retry, so exactly the first outcome is consumed (an empty environment
corresponds to the session itself failing, surfaced as `None`). -/
def get_current_weather_run : List FetchOutcome → Option WeatherResult × Nat
  | [] => (none, 0)
  | o :: _ => (get_current_weather o, 1)

/-- Modelled from the spec (retry policy of WeatherProvider.fetch_current,
spec section 4.1): on a transient "infrastructure not ready" connection
failure, back off and retry exactly once, surfacing the second attempt
outcome; on timeout or any other failure surface immediately.  This
definition follows the claim wording and exists only for comparison with
the source model `get_current_weather_run`. -/
def fetch_current_spec_model : List FetchOutcome → Option WeatherResult × Nat
  | [] => (none, 0)
  | .transientInfra :: rest =>
      match rest with
      | [] => (none, 1)
      | o2 :: _ => (get_current_weather o2, 2)
  | o :: _ => (get_current_weather o, 1)

/-! ### client.py: geocode_location display-name rule (lines 229-244) -/

/-- client.py lines 237-244: the location display name built from the chosen
geocoding result.  Python truthiness of the strings `admin1` and `country`
is nonemptiness. -/
def location_display_name (name country admin1 : String) : String :=
  if country = "United States" ∧ admin1 ≠ "" then name ++ ", " ++ admin1
  else if country ≠ "" then name ++ ", " ++ country
  else name

/-! ### driver.py: get_smart_update_interval (lines 34-48) -/

/-- driver.py lines 34-48, with `datetime.now().hour` made an explicit
argument.  The function depends on nothing but the current local hour. -/
def get_smart_update_interval (current_hour : Nat) : Nat :=
  if 23 ≤ current_hour ∨ current_hour < 6 then 14400
  else if (6 ≤ current_hour ∧ current_hour < 9) ∨ (17 ≤ current_hour ∧ current_hour < 20)
    then 1800
  else 3600

/-! ### weather_entity.py: WeatherEntity.update_weather (lines 133-196) -/

/-- ucapi media-player States used by the entity (States.ON / States.OFF). -/
inductive PowerState where
  | On
  | Off
deriving DecidableEq

/-- The five entity attributes written by the source
(STATE, MEDIA_TITLE, MEDIA_ARTIST, MEDIA_ALBUM, MEDIA_IMAGE_URL). -/
structure Attrs where
  state : PowerState
  media_title : String
  media_artist : String
  media_album : String
  media_image_url : String
deriving DecidableEq

/-- In-memory entity state: `self.attributes` and `self._weather_data`. -/
structure EntityState where
  attributes : Attrs
  weather_data : Option WeatherResult
deriving DecidableEq

/-- The presentation sink as the source sees it: `contains` models
`self._api and self._api.configured_entities.contains(self.id)` (api handle
present and entity in the configured list), and `pushes` is the log of
`update_attributes` calls for this entity, in order. -/
structure SinkState where
  contains : Bool
  pushes : List Attrs
deriving DecidableEq

/-- weather_entity.py lines 72-78: the attributes set in `__init__`. -/
def initialAttrs (location_name : String) : Attrs :=
  { state := PowerState.On
  , media_title := location_name
  , media_artist := "Loading..."
  , media_album := "Fetching weather..."
  , media_image_url := "" }

/-- weather_entity.py lines 133-178: one fetch-and-reconcile cycle.
`fetch` is what `self.weather_client.get_current_weather()` returned
(that call never raises: client.py catches every exception), `getIcon`
abstracts `self._get_icon_base64`.  On a truthy dict: STATE ON, artist the
temperature string, album the description, image the encoded icon; the
dict is stored in `self._weather_data`.  On `None`: STATE OFF, artist
"N/A", album "Data unavailable", image the encoded "cloud.png", and
`self._weather_data` is left as it was.  Either way the attributes are
pushed via `update_attributes` exactly when the api handle is present and
the configured list contains the entity.  (The source's final `except`
branch, reachable only from an exception raised inside this very method,
is outside the fetch-failure behaviour modelled here.) -/
def update_weather (getIcon : String → String) (location_name : String)
    (fetch : Option WeatherResult) (es : EntityState) (sink : SinkState) :
    EntityState × SinkState :=
  match fetch with
  | some weather_data =>
      let newAttrs : Attrs :=
        { state := PowerState.On
        , media_title := location_name
        , media_artist := weather_data.temperature
        , media_album := weather_data.description
        , media_image_url := getIcon weather_data.icon }
      ({ attributes := newAttrs, weather_data := some weather_data },
       if sink.contains then { sink with pushes := sink.pushes ++ [newAttrs] } else sink)
  | none =>
      let errorAttrs : Attrs :=
        { state := PowerState.Off
        , media_title := location_name
        , media_artist := "N/A"
        , media_album := "Data unavailable"
        , media_image_url := getIcon "cloud.png" }
      ({ attributes := errorAttrs, weather_data := es.weather_data },
       if sink.contains then { sink with pushes := sink.pushes ++ [errorAttrs] } else sink)

/-! ### config.py: WeatherConfig (lines 14-83) -/

/-- The keys of `self._config` with their value types (config.py lines
19-25).  `last_update` is either absent-as-null (`None`) or an ISO string. -/
structure Config where
  location : String
  latitude : ℚ
  longitude : ℚ
  location_name : String
  last_update : Option String
deriving DecidableEq

/-- config.py lines 19-25: the defaults set in `__init__`. -/
def defaultConfig : Config :=
  { location := "", latitude := 0, longitude := 0, location_name := ""
  , last_update := none }

/-- A parsed config.json object: each key optionally present.
`dict.update` replaces exactly the keys present in the loaded object. -/
structure PartialConfig where
  location : Option String
  latitude : Option ℚ
  longitude : Option ℚ
  location_name : Option String
  last_update : Option (Option String)
deriving DecidableEq

/-- `self._config.update(loaded_config)` (config.py line 34). -/
def applyUpdate (c : Config) (p : PartialConfig) : Config :=
  { location := p.location.getD c.location
  , latitude := p.latitude.getD c.latitude
  , longitude := p.longitude.getD c.longitude
  , location_name := p.location_name.getD c.location_name
  , last_update := p.last_update.getD c.last_update }

/-- One element of a valid-JSON document that is not an object, as consumed
by `dict.update` when it treats the document as a sequence of key/value
pairs: a two-element pair naming one of the config's own keys with a value
of its type, or an element on which `dict.update` raises (a non-sequence
element, a sequence whose length is not 2, or similar).  Pairs naming keys
outside the five config keys also insert into the dict before a later
raise; they do not change the five tracked fields and are outside this
typed model. -/
inductive SeqItem where
  | setLocation (v : String)
  | setLatitude (v : ℚ)
  | setLongitude (v : ℚ)
  | setLocationName (v : String)
  | setLastUpdate (v : Option String)
  | bad
deriving DecidableEq

/-- Inserting one well-formed pair of a sequence into the config dict
(`bad` inserts nothing: `dict.update` raises on it). -/
def applyPair (i : SeqItem) (c : Config) : Config :=
  match i with
  | .setLocation v => { c with location := v }
  | .setLatitude v => { c with latitude := v }
  | .setLongitude v => { c with longitude := v }
  | .setLocationName v => { c with location_name := v }
  | .setLastUpdate v => { c with last_update := v }
  | .bad => c

/-- CPython `dict.update` on a pair sequence (config.py line 34 when the
loaded document is a JSON array): elements are consumed left to right,
each well-formed pair is inserted immediately, and the first bad element
raises — with every earlier insertion kept.  An error value carries the
dict as mutated so far. -/
def dict_update_seq (c : Config) : List SeqItem → Except Config Config
  | [] => .ok c
  | .bad :: _ => .error c
  | i :: rest => dict_update_seq (applyPair i c) rest

/-- What the disk interaction of `load` can do: the file is absent
(`os.path.exists` false), opening or reading raises, `json.load` raises on
an invalid document, a JSON object is parsed (dict update applies all of
its keys at once), or a valid-JSON array is parsed and `dict.update`
consumes it as a pair sequence.  A valid-JSON scalar document (string,
number, boolean, null) makes `dict.update` raise before inserting
anything, which behaves exactly like a sequence whose first element is
bad (`parsedSeq (SeqItem.bad :: _)`). -/
inductive LoadOutcome where
  | absent
  | ioError
  | parseError
  | parsed (p : PartialConfig)
  | parsedSeq (items : List SeqItem)
deriving DecidableEq

/-- The try-block body of config.py load (lines 30-38): an error value is a
raised exception escaping the body, carrying the state of `self._config`
at the moment of the raise (possibly already partially mutated by
`dict.update`). -/
def load_body (c : Config) (disk : LoadOutcome) : Except Config Config :=
  match disk with
  | .absent => .ok c
  | .ioError => .error c
  | .parseError => .error c
  | .parsed p => .ok (applyUpdate c p)
  | .parsedSeq items => dict_update_seq c items

/-- config.py lines 28-40: the whole of load.  The `except Exception`
handler only logs, so a raised exception never propagates; `self._config`
is left exactly as the body left it — its prior value when the body raised
before touching it, the partially updated dict when `dict.update` raised
mid-sequence. -/
def load (c : Config) (disk : LoadOutcome) : Config :=
  match load_body c disk with
  | .ok c2 => c2
  | .error c2 => c2

/-- What the disk interaction of `save` can do. -/
inductive SaveOutcome where
  | okWrite
  | ioError
deriving DecidableEq

/-- The try-block body of config.py save (lines 44-48): makedirs, open and
json.dump may raise; the body never touches `self._config`. -/
def save_body (disk : SaveOutcome) : Except Unit Unit :=
  match disk with
  | .okWrite => .ok ()
  | .ioError => .error ()

/-- config.py lines 42-50: the whole of save.  The `except Exception`
handler only logs; `self._config` is unchanged on either path. -/
def save (c : Config) (disk : SaveOutcome) : Config :=
  match save_body disk with
  | .ok _ => c
  | .error _ => c

/-- config.py lines 52-59: `bool(location and latitude and longitude)`
under Python truthiness (empty string falsy, 0.0 falsy). -/
def is_configured (c : Config) : Bool :=
  (c.location != "") && (c.latitude != 0) && (c.longitude != 0)

/-! ### Shared concrete sample values used by witnesses and counterexamples -/

/-- A representative successful fetch result (70.0 degrees, clear sky, day). -/
def sampleResult : WeatherResult :=
  { temperature := "70.0Â°F", description := "Clear sky", icon := "sun.png"
  , humidity := 50, wind_speed := 5, weather_code := 0, is_day := 1 }

/-- A representative parsed `current` object. -/
def sampleCurrent : Current :=
  { temperature_2m := some 70, weather_code := some 0
  , relative_humidity_2m := some 50, wind_speed_10m := some 5, is_day := some 1 }

/-- A freshly constructed entity for location "Home". -/
def homeEntity : EntityState :=
  { attributes := initialAttrs "Home", weather_data := none }

/-- A sink that lists the entity as configured and has seen no pushes. -/
def activeSink : SinkState := { contains := true, pushes := [] }

/-- List.lookup misses every key that is not in the key column. -/
theorem lookup_none_of_not_mem_keys {β : Type} (l : List (Int × β)) (a : Int)
    (h : a ∉ l.map Prod.fst) : l.lookup a = none := by
  induction l with
  | nil => rfl
  | cons p l ih =>
      simp only [List.map_cons, List.mem_cons, not_or] at h
      obtain ⟨h1, h2⟩ := h
      cases p with
      | mk k v =>
          simp only [List.lookup]
          rw [show (a == k) = false from beq_eq_false_iff_ne.mpr h1]
          exact ih h2

/-! ## Claims -/

/-- Claim C1, counterexample.  The claim states that a failed
fetch-and-reconcile cycle leaves `power_state` On and that a data error
never sets it Off.  In the source (weather_entity.py lines 160-178) the
failure branch writes `Attributes.STATE: States.OFF`: one failed cycle
from the freshly constructed entity already has state Off. -/
theorem c1_counterexample :
    (update_weather id "Home" none homeEntity activeSink).1.attributes.state
      = PowerState.Off
    ∧ PowerState.Off ≠ PowerState.On := by
  exact ⟨rfl, by decide⟩

/-- Claim C1, amended.  On a failed fetch the cycle sets
`subtitle_primary` (MEDIA_ARTIST) to "N/A", `subtitle_secondary`
(MEDIA_ALBUM) to "Data unavailable", the image to the encoded generic
"cloud.png", keeps the title, and sets `power_state` to Off (not On as
claimed); the stored last successful weather data is retained.  A
successful cycle sets `power_state` back to On. -/
theorem c1_amended (getIcon : String → String) (loc : String)
    (wd : WeatherResult) (es : EntityState) (sink : SinkState) :
    (update_weather getIcon loc none es sink).1.attributes
      = { state := PowerState.Off, media_title := loc, media_artist := "N/A"
        , media_album := "Data unavailable", media_image_url := getIcon "cloud.png" }
    ∧ (update_weather getIcon loc none es sink).1.weather_data = es.weather_data
    ∧ (update_weather getIcon loc (some wd) es sink).1.attributes.state
        = PowerState.On := by
  exact ⟨rfl, rfl, rfl⟩

/-- Claim C2, counterexample.  The claim states that reconciling the same
successful snapshot twice pushes to the sink only once (the second push
suppressed by a no-diff rule).  The source (weather_entity.py lines
139-158) pushes via `update_attributes` on every cycle in which the entity
is in the configured list, with no comparison against the last push: two
identical cycles from a subscribed sink produce two pushes, the second
carrying attributes identical to the first. -/
theorem c2_counterexample :
    (update_weather id "Home" (some sampleResult)
        (update_weather id "Home" (some sampleResult) homeEntity activeSink).1
        (update_weather id "Home" (some sampleResult) homeEntity activeSink).2).2.pushes.length
      = 2
    ∧ (update_weather id "Home" (some sampleResult)
        (update_weather id "Home" (some sampleResult) homeEntity activeSink).1
        (update_weather id "Home" (some sampleResult) homeEntity activeSink).2).1.attributes
      = (update_weather id "Home" (some sampleResult) homeEntity activeSink).1.attributes := by
  exact ⟨rfl, rfl⟩

/-- Claim C2, amended.  Reconcile is idempotent on the presentation state:
two cycles on the same successful snapshot produce identical attributes.
But there is no field-diff suppression and no unconditional first push:
a push happens exactly when the entity is currently in the sink's
configured list, on every cycle, so two identical cycles against a
subscribed sink push twice (the same attributes both times), and against
an unsubscribed sink push nothing. -/
theorem c2_amended (getIcon : String → String) (loc : String)
    (wd : WeatherResult) (es : EntityState) (sink : SinkState) :
    (update_weather getIcon loc (some wd)
        (update_weather getIcon loc (some wd) es sink).1
        (update_weather getIcon loc (some wd) es sink).2).1.attributes
      = (update_weather getIcon loc (some wd) es sink).1.attributes
    ∧ (sink.contains = true →
        (update_weather getIcon loc (some wd)
          (update_weather getIcon loc (some wd) es sink).1
          (update_weather getIcon loc (some wd) es sink).2).2.pushes
        = sink.pushes
            ++ [(update_weather getIcon loc (some wd) es sink).1.attributes,
                (update_weather getIcon loc (some wd) es sink).1.attributes])
    ∧ (sink.contains = false →
        (update_weather getIcon loc (some wd)
          (update_weather getIcon loc (some wd) es sink).1
          (update_weather getIcon loc (some wd) es sink).2).2.pushes
        = sink.pushes) := by
  cases hc : sink.contains <;> simp [update_weather, hc]

/-- Claim C2, witness for the amended theorem at concrete inputs. -/
theorem c2_witness :
    (update_weather id "Home" (some sampleResult)
        (update_weather id "Home" (some sampleResult) homeEntity activeSink).1
        (update_weather id "Home" (some sampleResult) homeEntity activeSink).2).2.pushes
      = activeSink.pushes
          ++ [(update_weather id "Home" (some sampleResult) homeEntity activeSink).1.attributes,
              (update_weather id "Home" (some sampleResult) homeEntity activeSink).1.attributes] :=
  (c2_amended id "Home" sampleResult homeEntity activeSink).2.1 rfl

/-- Claim C3, counterexample.  The claim states that a transient
connection-layer failure is retried exactly once after a short backoff.
The source try block (client.py lines 130-185) contains no retry: it makes
one HTTP attempt and its generic `except Exception` turns a transient
connection failure into `None` immediately.  Against an environment whose
first attempt fails transiently and whose second attempt would succeed,
the source surfaces `None` after one attempt, while the behaviour the
claim describes performs a second attempt and succeeds. -/
theorem c3_counterexample :
    get_current_weather_run
        [FetchOutcome.transientInfra, FetchOutcome.response 200 (some sampleCurrent)]
      = (none, 1)
    ∧ (fetch_current_spec_model
        [FetchOutcome.transientInfra, FetchOutcome.response 200 (some sampleCurrent)]).1.isSome
      = true
    ∧ (fetch_current_spec_model
        [FetchOutcome.transientInfra, FetchOutcome.response 200 (some sampleCurrent)]).2
      = 2 := by
  exact ⟨rfl, by decide, rfl⟩

/-- Claim C3, amended.  get_current_weather never retries: it makes exactly
one HTTP attempt per call, and every outcome other than a 200 response —
timeout, transient connection-layer failure, any other exception, or a
non-200 status — is surfaced immediately as a failed fetch (`None`). -/
theorem c3_amended (o : FetchOutcome) (rest : List FetchOutcome) :
    (get_current_weather_run (o :: rest)).2 = 1
    ∧ ((∀ cur, o ≠ FetchOutcome.response 200 cur) →
        get_current_weather_run (o :: rest) = (none, 1)) := by
  refine ⟨rfl, fun h => ?_⟩
  cases o with
  | timeout => rfl
  | transientInfra => rfl
  | otherError => rfl
  | response status cur =>
      have hs : status ≠ 200 := by
        intro hEq
        exact h cur (by rw [hEq])
      simp [get_current_weather_run, get_current_weather, hs]

/-- Claim C3, witness for the amended theorem at a concrete transient
failure. -/
theorem c3_witness :
    get_current_weather_run [FetchOutcome.transientInfra] = (none, 1) :=
  (c3_amended FetchOutcome.transientInfra []).2 (fun _ h => FetchOutcome.noConfusion h)

/-- Claim C4, counterexample.  The claim states that a 200 response whose
body is missing the `current` object is a fetch failure.  In the source
(client.py line 148) `data.get("current", \x7b\x7d)` substitutes an empty dict,
every field then takes its default, and a snapshot is produced
(0.0 degrees, "Clear sky", "sun.png", day), not a failure. -/
theorem c4_counterexample :
    get_current_weather (FetchOutcome.response 200 none)
      = some { temperature := "0.0Â°F", description := "Clear sky", icon := "sun.png"
             , humidity := 0, wind_speed := 0, weather_code := 0, is_day := 1 }
    ∧ get_current_weather (FetchOutcome.response 200 none) ≠ none := by
  exact ⟨by decide, by decide⟩

/-- Claim C4, amended.  A non-200 status is a fetch failure, as claimed;
but a 200 response with the `current` object missing is not: the source
substitutes an empty dict and produces the all-defaults snapshot. -/
theorem c4_amended (status : Nat) (cur : Option Current) (h : status ≠ 200) :
    get_current_weather (FetchOutcome.response status cur) = none
    ∧ get_current_weather (FetchOutcome.response 200 none)
      = some { temperature := "0.0Â°F", description := "Clear sky", icon := "sun.png"
             , humidity := 0, wind_speed := 0, weather_code := 0, is_day := 1 } := by
  exact ⟨by simp [get_current_weather, h], by decide⟩

/-- Claim C4, witness for the amended theorem at status 404. -/
theorem c4_witness :
    get_current_weather (FetchOutcome.response 404 none) = none ∧
    get_current_weather (FetchOutcome.response 200 none)
      = some { temperature := "0.0Â°F", description := "Clear sky", icon := "sun.png"
             , humidity := 0, wind_speed := 0, weather_code := 0, is_day := 1 } :=
  c4_amended 404 none (by decide)

/-- Claim C5, confirmed.  get_smart_update_interval is a pure function of
the current local hour: 14400 s on [23,24) and [0,6), 1800 s on [6,9) and
[17,20), 3600 s otherwise, with the claimed values at hours 2, 7, 12, 18,
23 and at the boundary hours 6, 9, 17, 20. -/
theorem c5_theorem :
    (∀ h : Fin 24, (23 ≤ h.val ∨ h.val < 6) →
        get_smart_update_interval h.val = 14400)
    ∧ (∀ h : Fin 24, ((6 ≤ h.val ∧ h.val < 9) ∨ (17 ≤ h.val ∧ h.val < 20)) →
        get_smart_update_interval h.val = 1800)
    ∧ (∀ h : Fin 24, ¬(23 ≤ h.val ∨ h.val < 6) →
        ¬((6 ≤ h.val ∧ h.val < 9) ∨ (17 ≤ h.val ∧ h.val < 20)) →
        get_smart_update_interval h.val = 3600)
    ∧ get_smart_update_interval 2 = 14400
    ∧ get_smart_update_interval 7 = 1800
    ∧ get_smart_update_interval 12 = 3600
    ∧ get_smart_update_interval 18 = 1800
    ∧ get_smart_update_interval 23 = 14400
    ∧ get_smart_update_interval 6 = 1800
    ∧ get_smart_update_interval 9 = 3600
    ∧ get_smart_update_interval 17 = 1800
    ∧ get_smart_update_interval 20 = 3600 := by
  decide

/-- Claim C5, witness for the bounded quantifiers at hour 2. -/
theorem c5_witness : get_smart_update_interval 2 = 14400 :=
  c5_theorem.1 ⟨2, by decide⟩ (Or.inr (by decide))

/-- Claim C6, code bug.  The claim (with the spec) requires the formatted
temperature to carry the suffix matching the configured unit, °F or °C.
The source client formats `f"\x7btemperature:.1f\x7dÂ°F"` unconditionally: the
suffix is the literal mojibake byte sequence `Â°F` (U+00C2 U+00B0 F)
regardless of any unit, and WeatherClient accepts no unit at all — even
though driver.py passes `temperature_unit` to its constructor and calls
`CONFIG.get_temperature_unit()`, neither of which the client/config code
supports.  Evaluating the code at temperature −0.04: the one-decimal
rounding and sign are as claimed, but the suffix is `Â°F`, which is
neither the claimed "°C" (for a Celsius configuration) nor even "°F". -/
theorem c6_theorem :
    (get_current_weather (FetchOutcome.response 200
        (some { temperature_2m := some (mkRat (-4) 100), weather_code := some 0
              , relative_humidity_2m := some 50, wind_speed_10m := some 5
              , is_day := some 1 }))).map (fun r => r.temperature)
      = some "-0.0Â°F"
    ∧ "-0.0Â°F" ≠ "-0.0°C"
    ∧ "-0.0Â°F" ≠ "-0.0°F" := by
  exact ⟨by decide, by decide, by decide⟩

/-- Claim C7, counterexample.  The claim states that every condition code
outside the table maps to the generic "cloud" fallback icon for both day
and night.  The source fallbacks (client.py lines 158, 160) are "sun.png"
for day and "moon.png" for night: code 4 is outside the table and maps to
neither "cloud.png". -/
theorem c7_counterexample :
    icon_for 4 1 = "sun.png"
    ∧ icon_for 4 0 = "moon.png"
    ∧ ("sun.png" : String) ≠ "cloud.png"
    ∧ ("moon.png" : String) ≠ "cloud.png" := by
  exact ⟨by decide, by decide, by decide, by decide⟩

/-- Claim C7, amended.  The lookup is total and deterministic: every code
in the day table maps under the day flag to its non-empty table icon,
every code in the night table likewise, every code in the description
table to its non-empty description; and every code outside the tables
falls back to "sun.png" (day), "moon.png" (night) and "Unknown" — not to a
generic "cloud" icon — without raising. -/
theorem c7_amended :
    (∀ p ∈ WEATHER_ICONS_DAY, icon_for p.1 1 = p.2 ∧ p.2 ≠ "")
    ∧ (∀ p ∈ WEATHER_ICONS_NIGHT, icon_for p.1 0 = p.2 ∧ p.2 ≠ "")
    ∧ (∀ p ∈ WEATHER_DESCRIPTIONS, description_for p.1 = p.2 ∧ p.2 ≠ "")
    ∧ (∀ code : Int, code ∉ WEATHER_ICONS_DAY.map Prod.fst →
        icon_for code 1 = "sun.png")
    ∧ (∀ code : Int, code ∉ WEATHER_ICONS_NIGHT.map Prod.fst →
        icon_for code 0 = "moon.png")
    ∧ (∀ code : Int, code ∉ WEATHER_DESCRIPTIONS.map Prod.fst →
        description_for code = "Unknown") := by
  refine ⟨by decide, by decide, by decide, ?_, ?_, ?_⟩
  · intro code h
    simp [icon_for, lookup_none_of_not_mem_keys _ _ h]
  · intro code h
    simp [icon_for, lookup_none_of_not_mem_keys _ _ h]
  · intro code h
    simp [description_for, lookup_none_of_not_mem_keys _ _ h]

/-- Claim C7, witness for the amended theorem: an in-table code (0, day)
and an out-of-table code (4, day). -/
theorem c7_witness : icon_for 0 1 = "sun.png" ∧ icon_for 4 1 = "sun.png" :=
  ⟨(c7_amended.1 (0, "sun.png") (by decide)).1,
   c7_amended.2.2.2.1 4 (by decide)⟩

/-- Claim C8, counterexample.  The claim states that the display name uses
"name, admin_region" for every result with an admin region, regardless of
country.  The source (client.py lines 237-244) applies the region rule
only when the country is exactly "United States": a Canadian result with a
region present is formatted with the country instead. -/
theorem c8_counterexample :
    location_display_name "Toronto" "Canada" "Ontario" = "Toronto, Canada"
    ∧ ("Toronto, Canada" : String) ≠ "Toronto, Ontario" := by
  exact ⟨by decide, by decide⟩

/-- Claim C8, amended.  The display name is "name, admin1" only when the
country is "United States" and admin1 is non-empty; a US result without a
region, and every non-US result with a non-empty country, get
"name, country"; only an empty country yields the bare name. -/
theorem c8_amended (name country admin1 : String) :
    (country = "United States" → admin1 ≠ "" →
        location_display_name name country admin1 = name ++ ", " ++ admin1)
    ∧ (country = "United States" → admin1 = "" →
        location_display_name name country admin1 = name ++ ", " ++ country)
    ∧ (country ≠ "United States" → country ≠ "" →
        location_display_name name country admin1 = name ++ ", " ++ country)
    ∧ (country = "" → location_display_name name country admin1 = name) := by
  refine ⟨fun hc ha => ?_, fun hc ha => ?_, fun hc hne => ?_, fun hc => ?_⟩
  · simp [location_display_name, hc, ha]
  · simp [location_display_name, hc, ha]
  · simp [location_display_name, hc, hne]
  · simp [location_display_name, hc]

/-- Claim C8, witness for the amended theorem on the Canadian example. -/
theorem c8_witness :
    location_display_name "Toronto" "Canada" "Ontario" = "Toronto" ++ ", " ++ "Canada" :=
  (c8_amended "Toronto" "Canada" "Ontario").2.2.1 (by decide) (by decide)

/-- Claim C9, counterexample.  The claim states that a settings record with
latitude and longitude present — including the value 0.0 — is reported as
configured, and that only their absence marks the system unconfigured.
The source (config.py lines 52-59) tests Python truthiness: a record with
both coordinates present but equal to 0.0 is reported unconfigured, and so
is a record with real coordinates but an empty location string. -/
theorem c9_counterexample :
    is_configured { location := "Null Island", latitude := 0, longitude := 0
                  , location_name := "Null Island", last_update := none } = false
    ∧ is_configured { location := "", latitude := 40, longitude := -74
                    , location_name := "New York", last_update := none } = false := by
  exact ⟨by decide, by decide⟩

/-- Claim C9, amended.  The configured state is decided by Python
truthiness of three fields: configured exactly when the location string is
non-empty and both coordinates are non-zero; a 0.0 coordinate or an empty
location string marks the system unconfigured. -/
theorem c9_amended (c : Config) :
    is_configured c = true ↔ (c.location ≠ "" ∧ c.latitude ≠ 0 ∧ c.longitude ≠ 0) := by
  simp [is_configured, and_assoc]

/-- Claim C9, witness for the amended theorem on a configured record. -/
theorem c9_witness :
    is_configured { location := "New York", latitude := 40, longitude := -74
                  , location_name := "New York, New York", last_update := none } = true :=
  (c9_amended _).mpr (by decide)

/-- Claim C10, counterexample.  The claim states that a failed load leaves
the in-memory configuration exactly as it was before the call.  A file
holding the valid-JSON non-dict document `[["location","x"], 0]` defeats
it: `json.load` succeeds, `dict.update` (config.py line 34) treats the
array as a pair sequence, inserts `location -> "x"`, then raises on the
element `0`; the `except` handler only logs, and the failed load has
mutated the configuration. -/
theorem c10_counterexample :
    load_body defaultConfig (LoadOutcome.parsedSeq [SeqItem.setLocation "x", SeqItem.bad])
      = Except.error { location := "x", latitude := 0, longitude := 0
                     , location_name := "", last_update := none }
    ∧ load defaultConfig (LoadOutcome.parsedSeq [SeqItem.setLocation "x", SeqItem.bad])
      ≠ defaultConfig := by
  exact ⟨rfl, by decide⟩

/-- Claim C10, amended.  load and save never propagate an exception (every
failure is caught and only logged, modelled by the total functions `load`
and `save`).  A load that fails before touching the dict — I/O failure,
invalid-JSON parse failure, or a sequence document whose first element is
already bad — leaves the configuration exactly as it was, as does a load
of an absent file and every save.  But a failed load need not: on a
valid-JSON array document, `dict.update` inserts each leading well-formed
pair before raising on the first bad element, and that partial mutation
survives the caught exception. -/
theorem c10_amended (c : Config) (disk : LoadOutcome) (sdisk : SaveOutcome)
    (h : load_body c disk = Except.error c) :
    load c disk = c
    ∧ load c LoadOutcome.absent = c
    ∧ save c sdisk = c
    ∧ (∀ items, load c (LoadOutcome.parsedSeq (SeqItem.bad :: items)) = c)
    ∧ (∀ i rest, i ≠ SeqItem.bad →
        load c (LoadOutcome.parsedSeq (i :: rest))
          = load (applyPair i c) (LoadOutcome.parsedSeq rest)) := by
  refine ⟨?_, rfl, ?_, fun items => rfl, fun i rest hi => ?_⟩
  · unfold load
    rw [h]
  · cases sdisk <;> rfl
  · cases i with
    | setLocation v => rfl
    | setLatitude v => rfl
    | setLongitude v => rfl
    | setLocationName v => rfl
    | setLastUpdate v => rfl
    | bad => exact absurd rfl hi

/-- Claim C10, witness: an I/O failure during load leaves the defaults;
the reviewed sequence document applies its leading pair before the raise. -/
theorem c10_witness :
    load defaultConfig LoadOutcome.ioError = defaultConfig
    ∧ load defaultConfig (LoadOutcome.parsedSeq [SeqItem.setLocation "x", SeqItem.bad])
      = load (applyPair (SeqItem.setLocation "x") defaultConfig)
          (LoadOutcome.parsedSeq [SeqItem.bad]) :=
  ⟨(c10_amended defaultConfig LoadOutcome.ioError SaveOutcome.ioError rfl).1,
   (c10_amended defaultConfig LoadOutcome.ioError SaveOutcome.ioError rfl).2.2.2.2
     (SeqItem.setLocation "x") [SeqItem.bad] (by decide)⟩

end UCWeather
